import Mathlib

/-!
A verification development for the Shopify→MDS webhook relay (`app.py`).

The Python handler is shallowly embedded: dictionaries whose keys may be
absent become structures with `Option` fields (subscripting an absent key
models Python's `KeyError`; JSON `null` values are not modelled), byte
strings become `List Nat`, machine-level hashing (`hmac`/`hashlib.sha256`)
and `base64.b64encode` are implemented concretely over `List Nat`, the
mutable `xml.etree` element tree becomes a pure nested `Element` value,
logging becomes an accumulated list of `(level, message)` pairs, and the
single outbound `requests.post` becomes a recorded `sent` document plus an
oracle for the downstream response text and its `xmltodict.parse` outcome.
The code is Python 2 (`u"..."` literals, `raven`), so `base64.b64encode`
returns a `str` comparable with the header string.
-/

set_option maxRecDepth 40000

namespace Tranquilo

/-- Model of Python `str.startswith(p)`: `p`'s characters are a prefix of
`s`'s characters. -/
def pyStartswith (s p : String) : Bool :=
  listPrefixOf p.data s.data
where
  listPrefixOf : List Char → List Char → Bool
    | [], _ => true
    | _ :: _, [] => false
    | a :: as, b :: bs => a == b && listPrefixOf as bs

/-- Model of Python `str.zfill(w)` for the non-negative strings produced by
`str(int)` in this program: left-pad with `'0'` to width `w`. -/
def zfill (w : Nat) (s : String) : String :=
  ⟨List.replicate (w - s.data.length) '0' ++ s.data⟩

/-- The character for a decimal digit value (`0 ↦ '0'`, …, `9 ↦ '9'`). -/
def digitChar (n : Nat) : Char := Char.ofNat (48 + n)

/-- Decimal digits of `n`, most significant first; `fuel` bounds recursion
and any `fuel > n` is enough. -/
def decChars (fuel n : Nat) : List Char :=
  match fuel with
  | 0 => []
  | f + 1 => if n < 10 then [digitChar n] else decChars f (n / 10) ++ [digitChar (n % 10)]

/-- Model of Python `str(n)` for a non-negative integer counter. -/
def pyStrNat (n : Nat) : String := ⟨decChars (n + 1) n⟩

/-- Model of Python `str(i)` for an `int`. -/
def pyIntStr (i : Int) : String :=
  if i < 0 then "-" ++ pyStrNat i.natAbs else pyStrNat i.natAbs

/-! ## SHA-256, HMAC and base64 (`hashlib`, `hmac`, `base64.b64encode`)

Bytes are `List Nat` (each entry `< 256`); 32-bit words are `Nat` reduced
modulo `2 ^ 32` wherever overflow matters. -/

/-- Truncate to a 32-bit word. -/
def w32 (n : Nat) : Nat := n % 4294967296

/-- Right-rotate a 32-bit word by `k` bits. -/
def rotr32 (k x : Nat) : Nat := w32 (x / 2 ^ k + x % 2 ^ k * 2 ^ (32 - k))

/-- SHA-256 small sigma 0. -/
def ssig0 (x : Nat) : Nat := rotr32 7 x ^^^ rotr32 18 x ^^^ x / 8

/-- SHA-256 small sigma 1. -/
def ssig1 (x : Nat) : Nat := rotr32 17 x ^^^ rotr32 19 x ^^^ x / 1024

/-- SHA-256 big sigma 0. -/
def bsig0 (x : Nat) : Nat := rotr32 2 x ^^^ rotr32 13 x ^^^ rotr32 22 x

/-- SHA-256 big sigma 1. -/
def bsig1 (x : Nat) : Nat := rotr32 6 x ^^^ rotr32 11 x ^^^ rotr32 25 x

/-- SHA-256 round constants (decimal). -/
def sha256K : List Nat :=
  [1116352408, 1899447441, 3049323471, 3921009573, 961987163, 1508970993, 2453635748,
   2870763221, 3624381080, 310598401, 607225278, 1426881987, 1925078388, 2162078206,
   2614888103, 3248222580, 3835390401, 4022224774, 264347078, 604807628, 770255983,
   1249150122, 1555081692, 1996064986, 2554220882, 2821834349, 2952996808, 3210313671,
   3336571891, 3584528711, 113926993, 338241895, 666307205, 773529912, 1294757372,
   1396182291, 1695183700, 1986661051, 2177026350, 2456956037, 2730485921, 2820302411,
   3259730800, 3345764771, 3516065817, 3600352804, 4094571909, 275423344, 430227734,
   506948616, 659060556, 883997877, 958139571, 1322822218, 1537002063, 1747873779,
   1955562222, 2024104815, 2227730452, 2361852424, 2428436474, 2756734187, 3204031479,
   3329325298]

/-- SHA-256 initial hash state (decimal). -/
def sha256H0 : List Nat :=
  [1779033703, 3144134277, 1013904242, 2773480762, 1359893119, 2600822924, 528734635,
   1541459225]

/-- A 64-bit big-endian length field as 8 bytes. -/
def be64 (n : Nat) : List Nat :=
  [n / 2 ^ 56 % 256, n / 2 ^ 48 % 256, n / 2 ^ 40 % 256, n / 2 ^ 32 % 256,
   n / 2 ^ 24 % 256, n / 2 ^ 16 % 256, n / 2 ^ 8 % 256, n % 256]

/-- A 32-bit word as 4 big-endian bytes. -/
def be32 (n : Nat) : List Nat :=
  [n / 2 ^ 24 % 256, n / 2 ^ 16 % 256, n / 2 ^ 8 % 256, n % 256]

/-- SHA-256 padding: append `0x80`, zero bytes to 56 mod 64, and the
bit length as 8 big-endian bytes. -/
def sha256pad (msg : List Nat) : List Nat :=
  msg ++ [128] ++ List.replicate ((119 - msg.length % 64) % 64) 0 ++ be64 (8 * msg.length)

/-- Big-endian 4-byte grouping of a byte list into 32-bit words. -/
def toWords : List Nat → List Nat
  | a :: b :: c :: d :: rest => (a * 16777216 + b * 65536 + c * 256 + d) :: toWords rest
  | _ => []

/-- Extend a 16-word chunk by `fuel` schedule words (48 for SHA-256). -/
def schedExtend (w : List Nat) : Nat → List Nat
  | 0 => w
  | f + 1 =>
    let i := w.length
    let nw := w32 (w.getD (i - 16) 0 + ssig0 (w.getD (i - 15) 0) + w.getD (i - 7) 0 +
      ssig1 (w.getD (i - 2) 0))
    schedExtend (w ++ [nw]) f

/-- One SHA-256 compression round on an 8-word state, given `(k, w)`. -/
def sha256Round (st : List Nat) (kw : Nat × Nat) : List Nat :=
  match st with
  | [a, b, c, d, e, f, g, h] =>
    let t1 := w32 (h + bsig1 e + ((e &&& f) ^^^ ((4294967295 - e) &&& g)) + kw.1 + kw.2)
    let t2 := w32 (bsig0 a + ((a &&& b) ^^^ (a &&& c) ^^^ (b &&& c)))
    [w32 (t1 + t2), a, b, c, w32 (d + t1), e, f, g]
  | _ => st

/-- Process a padded byte stream 64 bytes at a time; `fuel` bounds the
number of chunks (the padded length suffices). -/
def sha256chunks (fuel : Nat) (h : List Nat) (bytes : List Nat) : List Nat :=
  match fuel with
  | 0 => h
  | f + 1 =>
    match bytes with
    | [] => h
    | _ =>
      let w := schedExtend (toWords (bytes.take 64)) 48
      let st := (sha256K.zip w).foldl sha256Round h
      let h2 := (h.zip st).map fun p => w32 (p.1 + p.2)
      sha256chunks f h2 (bytes.drop 64)

/-- SHA-256 of a byte list (model of `hashlib.sha256(body).digest()`). -/
def sha256 (msg : List Nat) : List Nat :=
  let padded := sha256pad msg
  ((sha256chunks padded.length sha256H0 padded).map be32).flatten

/-- HMAC-SHA256 (model of `hmac.new(secret, body, hashlib.sha256).digest()`,
block size 64). -/
def hmacSha256 (key msg : List Nat) : List Nat :=
  let k0 := if key.length > 64 then sha256 key else key
  let k := k0 ++ List.replicate (64 - k0.length) 0
  sha256 ((k.map fun b => b ^^^ 92) ++ sha256 ((k.map fun b => b ^^^ 54) ++ msg))

/-- The base64 alphabet. -/
def b64chars : List Char :=
  "ABCDEFGHIJKLMNOPQRSTUVWXYZabcdefghijklmnopqrstuvwxyz0123456789+/".data

/-- Character for a 6-bit group. -/
def b64char (n : Nat) : Char := b64chars.getD n 'A'

/-- Model of `base64.b64encode` (standard alphabet, `=` padding), as the
character list of the resulting Python 2 `str`. -/
def b64chunks : List Nat → List Char
  | a :: b :: c :: rest =>
    b64char (a / 4) :: b64char (a % 4 * 16 + b / 16) :: b64char (b % 16 * 4 + c / 64) ::
      b64char (c % 64) :: b64chunks rest
  | [a, b] => [b64char (a / 4), b64char (a % 4 * 16 + b / 16), b64char (b % 16 * 4), '=']
  | [a] => [b64char (a / 4), b64char (a % 4 * 16), '=', '=']
  | [] => []

/-- Model of `base64.b64encode` applied to a byte list, as a string. -/
def b64encode (bs : List Nat) : String := ⟨b64chunks bs⟩

/-- The helper `_hmac_is_valid(secret, body, hmac_to_verify)` from `app.py`: the
base64-encoded HMAC-SHA256 of the raw body under the secret, compared for
equality with the claimed signature (Python 2 `str` equality). -/
def _hmac_is_valid (secret body : List Nat) (hmac_to_verify : String) : Bool :=
  b64encode (hmacSha256 secret body) == hmac_to_verify

/-! ## `datetime.datetime.strptime(s, '%Y-%m-%d').strftime('%m/%d/%Y')`

CPython's `_strptime` matches `%Y` as exactly four digits, `%m` by the
regex `1[0-2]|0[1-9]|[1-9]`, `%d` by `3[01]|[12]\d|0[1-9]|[1-9]`, requires
the whole string to be consumed, and the `datetime` constructor then
validates the year range and the day against the month length.  A failure
anywhere raises `ValueError`. -/

/-- Is `c` an ASCII decimal digit? -/
def isDigitC (c : Char) : Bool := 48 ≤ c.toNat && c.toNat ≤ 57

/-- Decimal value of an ASCII digit character. -/
def dval (c : Char) : Nat := c.toNat - 48

/-- Match `%Y`: exactly four digits. -/
def parse4 : List Char → Option (Nat × List Char)
  | a :: b :: c :: d :: rest =>
    if isDigitC a && isDigitC b && isDigitC c && isDigitC d then
      some (1000 * dval a + 100 * dval b + 10 * dval c + dval d, rest)
    else none
  | _ => none

/-- Match `%m` (`1[0-2]|0[1-9]|[1-9]`): a two-digit run with value 1–12,
else a single nonzero digit. -/
def parseMonthF : List Char → Option (Nat × List Char)
  | c1 :: c2 :: rest =>
    if isDigitC c1 && isDigitC c2 && 1 ≤ 10 * dval c1 + dval c2 && 10 * dval c1 + dval c2 ≤ 12 then
      some (10 * dval c1 + dval c2, rest)
    else if isDigitC c1 && 1 ≤ dval c1 then some (dval c1, c2 :: rest)
    else none
  | [c1] => if isDigitC c1 && 1 ≤ dval c1 then some (dval c1, []) else none
  | [] => none

/-- Match `%d` (`3[01]|[12]\d|0[1-9]|[1-9]`): a two-digit run with value
1–31, else a single nonzero digit. -/
def parseDayF : List Char → Option (Nat × List Char)
  | c1 :: c2 :: rest =>
    if isDigitC c1 && isDigitC c2 && 1 ≤ 10 * dval c1 + dval c2 && 10 * dval c1 + dval c2 ≤ 31 then
      some (10 * dval c1 + dval c2, rest)
    else if isDigitC c1 && 1 ≤ dval c1 then some (dval c1, c2 :: rest)
    else none
  | [c1] => if isDigitC c1 && 1 ≤ dval c1 then some (dval c1, []) else none
  | [] => none

/-- Gregorian leap year, as validated by `datetime`. -/
def isLeap (y : Nat) : Bool := y % 4 == 0 && (y % 100 != 0 || y % 400 == 0)

/-- Days in a month, as validated by `datetime`. -/
def daysInMonth (y m : Nat) : Nat :=
  if m == 2 then (if isLeap y then 29 else 28)
  else if m == 4 || m == 6 || m == 9 || m == 11 then 30
  else 31

/-- Model of `datetime.datetime.strptime(s, '%Y-%m-%d')` on the characters of `s`:
`some (y, m, d)` on success, `none` when a `ValueError` is raised. -/
def strptime10 (l : List Char) : Option (Nat × Nat × Nat) :=
  match parse4 l with
  | some (y, '-' :: r1) =>
    (match parseMonthF r1 with
     | some (m, '-' :: r2) =>
       (match parseDayF r2 with
        | some (d, []) =>
          if 1 ≤ y && d ≤ daysInMonth y m then some (y, m, d) else none
        | _ => none)
     | _ => none)
  | _ => none

/-- The `%m/%d/%Y` text for an in-range parsed `(y, m, d)`: two-digit
zero-padded month and day, four-digit year. -/
def strftimeMdY : Nat × Nat × Nat → String
  | (y, m, d) =>
    ⟨[digitChar (m / 10), digitChar (m % 10), '/', digitChar (d / 10), digitChar (d % 10), '/',
      digitChar (y / 1000 % 10), digitChar (y / 100 % 10), digitChar (y / 10 % 10),
      digitChar (y % 10)]⟩

/-! ## Data model

The inbound JSON event (`request.get_json()`), mirroring the fields the
handler reads.  `Option` distinguishes a present key from an absent one:
subscripting an absent key is Python's `KeyError`.  `dict.get(k, '')`
truthiness is modelled by `Option.isSome` for the address objects and by a
dedicated `Bool` for `refunds` (whose value is never read otherwise). -/

/-- One entry of `line_items`. -/
structure LineItem where
  sku : Option String
  title : Option String
  price : Option String
  quantity : Option Int
  deriving Repr

/-- A shipping or billing address object (`phone` is only read for the
shipping address). -/
structure Address where
  company : Option String
  name : Option String
  address1 : Option String
  address2 : Option String
  city : Option String
  province_code : Option String
  country_code : Option String
  zip : Option String
  phone : Option String
  deriving Repr

/-- The parsed webhook body. `refunds_truthy` is the truthiness of
`data.get('refunds', '')`. -/
structure OrderEvent where
  order_number : Option Int
  created_at : Option String
  refunds_truthy : Bool
  shipping_address : Option Address
  billing_address : Option Address
  contact_email : Option String
  total_price : Option String
  note : Option String
  line_items : Option (List LineItem)
  deriving Repr

/-- The environment-sourced configuration the handler reads. -/
structure Config where
  secret : List Nat
  mds_test : String
  client_code : String
  client_signature : String
  deriving Repr

/-- One inbound HTTP request: the raw body bytes, the
`X-Shopify-Hmac-Sha256` header if present, and the JSON parse outcome
(`none` when the body is not parseable JSON). -/
structure Request where
  hmacHeader : Option String
  rawBody : List Nat
  json : Option OrderEvent
  deriving Repr

/-- Python exceptions distinguished by the handler's `except` clauses. -/
inductive PyExc where
  | keyError
  | valueError
  | typeError
  | xmlParseError
  deriving DecidableEq, Repr

/-- The value `xmltodict.parse` produces: nested dictionaries and strings. -/
inductive XVal where
  | str (s : String)
  | dict (fields : List (String × XVal))

/-- The downstream HTTP response, as an oracle: its raw text (`r.text`)
and the outcome of `xmltodict.parse(r.text)` (`Except.error` when parsing
raises). -/
structure MdsResponse where
  text : String
  parsed : Except PyExc XVal

/-- An `xml.etree` element: tag, attributes, text, children in order. -/
inductive Element where
  | mk (tag : String) (attrs : List (String × String)) (text : Option String)
      (children : List Element)

/-- The tag of an element. -/
def Element.tag : Element → String
  | .mk t _ _ _ => t

/-- The attributes of an element. -/
def Element.attrs : Element → List (String × String)
  | .mk _ a _ _ => a

/-- The text of an element. -/
def Element.text : Element → Option String
  | .mk _ _ t _ => t

/-- The children of an element. -/
def Element.children : Element → List Element
  | .mk _ _ _ c => c

/-- A leaf element with only text (`SubElement` followed by `.text = v`). -/
def el (tag v : String) : Element := .mk tag [] (some v) []

/-- Log levels used by the handler (`app.logger.exception` records at
error level). -/
inductive LogLevel where
  | debug
  | info
  | error
  deriving DecidableEq, Repr

/-- One log record. -/
structure LogEntry where
  level : LogLevel
  msg : String
  deriving DecidableEq, Repr

/-- The observable outcome of one `/webhook` invocation: the returned
response or an uncaught exception, the document POSTed downstream if the
outbound call happened, and the log records in order. -/
structure RunResult where
  result : Except PyExc (Nat × String)
  sent : Option Element
  logs : List LogEntry

/-! ## The handler -/

/-- Subscripting a dictionary: `KeyError` when the key is absent. -/
def getK {α : Type} : Option α → Except PyExc α
  | some v => .ok v
  | none => .error .keyError

/-- Dictionary lookup on a parsed `xmltodict` value: `KeyError` when the
key is absent, `TypeError` when subscripting a string. -/
def xGet : XVal → String → Except PyExc XVal
  | .dict fs, k => getK (fs.lookup k)
  | .str _, _ => .error .typeError

/-- The `assert resp['CUSTOrderAck']['OrderAck']['Result'] == '1'` check:
`true` exactly when the nested lookups succeed and yield the string `"1"`
(any exception or a failed assertion lands in the same bare `except`). -/
def ackOk (resp : XVal) : Bool :=
  match xGet resp "CUSTOrderAck" with
  | .error _ => false
  | .ok a =>
    match xGet a "OrderAck" with
    | .error _ => false
    | .ok b =>
      match xGet b "Result" with
      | .error _ => false
      | .ok (.str s) => s == "1"
      | .ok (.dict _) => false

/-- The `for line in data['line_items']` loop: skip `"WS"`- and
`"DC"`-prefixed SKUs (counting them), and emit one `Line` element per
retained item, numbered sequentially from `line_item_num + 1`, zero-padded
to three digits.  Returns the `Line` elements and the final
`(line_item_num, wholesale_lines, dc_lines)` counters, or the first
`KeyError`. -/
def buildLines : List LineItem → Nat → Nat → Nat →
    Except PyExc (List Element × Nat × Nat × Nat)
  | [], n, w, d => .ok ([], n, w, d)
  | li :: rest, n, w, d =>
    match li.sku with
    | none => .error .keyError
    | some sku =>
      if pyStartswith sku "WS" then buildLines rest n (w + 1) d
      else if pyStartswith sku "DC" then buildLines rest n w (d + 1)
      else
        match li.title with
        | none => .error .keyError
        | some title =>
          match li.price with
          | none => .error .keyError
          | some price =>
            match li.quantity with
            | none => .error .keyError
            | some qty =>
              match buildLines rest (n + 1) w d with
              | .error e => .error e
              | .ok (els, n2, w2, d2) =>
                .ok (Element.mk "Line" [("number", zfill 3 (pyStrNat (n + 1)))] none
                  [el "CUSTItemID" sku, el "RetailerItemID" sku, el "Description" title,
                   el "PricePerUnit" price, el "Qty" (pyIntStr qty)] :: els, n2, w2, d2)

/-- The `if data.get('shipping_address', '')` block: the ten `Ship*`
elements (ending with `ShipEmail` from `contact_email`), in source order
of field access. -/
def shipEls (data : OrderEvent) : Except PyExc (List Element) :=
  match data.shipping_address with
  | none => .ok []
  | some sa =>
    match sa.company with
    | none => .error .keyError
    | some c =>
      match sa.name with
      | none => .error .keyError
      | some nm =>
        match sa.address1 with
        | none => .error .keyError
        | some a1 =>
          match sa.address2 with
          | none => .error .keyError
          | some a2 =>
            match sa.city with
            | none => .error .keyError
            | some ci =>
              match sa.province_code with
              | none => .error .keyError
              | some pc =>
                match sa.country_code with
                | none => .error .keyError
                | some cc =>
                  match sa.zip with
                  | none => .error .keyError
                  | some z =>
                    match sa.phone with
                    | none => .error .keyError
                    | some ph =>
                      match data.contact_email with
                      | none => .error .keyError
                      | some em =>
                        .ok [el "ShipCompany" c, el "Shipname" nm, el "ShipAddress1" a1,
                          el "ShipAddress2" a2, el "ShipCity" ci, el "ShipState" pc,
                          el "ShipCountry" cc, el "ShipZip" z, el "ShipPhone" ph,
                          el "ShipEmail" em]

/-- The `if data.get('billing_address', '')` block: the eight `Bill*`
elements (no phone or email), in source order of field access. -/
def billEls (data : OrderEvent) : Except PyExc (List Element) :=
  match data.billing_address with
  | none => .ok []
  | some ba =>
    match ba.company with
    | none => .error .keyError
    | some c =>
      match ba.name with
      | none => .error .keyError
      | some nm =>
        match ba.address1 with
        | none => .error .keyError
        | some a1 =>
          match ba.address2 with
          | none => .error .keyError
          | some a2 =>
            match ba.city with
            | none => .error .keyError
            | some ci =>
              match ba.province_code with
              | none => .error .keyError
              | some pc =>
                match ba.country_code with
                | none => .error .keyError
                | some cc =>
                  match ba.zip with
                  | none => .error .keyError
                  | some z =>
                    .ok [el "BillCompany" c, el "Billname" nm, el "BillAddress1" a1,
                      el "BillAddress2" a2, el "BillCity" ci, el "BillState" pc,
                      el "BillCountry" cc, el "BillZip" z]

/-- Model of Python 2 `.strftime('%m/%d/%Y')` as called on line 121:
CPython 2's `datetime.strftime` refuses years before 1900, raising
`ValueError` ("year=... is before 1900"); in range it produces the
`strftimeMdY` text. -/
def py2Strftime (ymd : Nat × Nat × Nat) : Except PyExc String :=
  if ymd.1 < 1900 then .error .valueError else .ok (strftimeMdY ymd)

/-- The `try:` block of lines 113–195: build the `Order` node's children
(`Test` in test mode, `OrderID`, `OrderDate`, shipping block, billing
block, `OrderTotal`, `OrderNotes`, `Lines`), in source order of field
access, together with the final loop counters.  A missing key is
`Except.error .keyError`; a `created_at` whose first ten characters do
not `strptime` as `%Y-%m-%d`, or whose year Python 2's `strftime`
rejects (before 1900), is `Except.error .valueError`. -/
def buildOrder (cfg : Config) (data : OrderEvent) :
    Except PyExc (List Element × Nat × Nat × Nat) :=
  match data.order_number with
  | none => .error .keyError
  | some onum =>
    match data.created_at with
    | none => .error .keyError
    | some ca =>
      match strptime10 (ca.data.take 10) with
      | none => .error .valueError
      | some ymd =>
      match py2Strftime ymd with
      | .error e => .error e
      | .ok dateStr =>
        match shipEls data with
        | .error e => .error e
        | .ok ship =>
          match billEls data with
          | .error e => .error e
          | .ok bill =>
            match data.total_price with
            | none => .error .keyError
            | some total =>
              match data.note with
              | none => .error .keyError
              | some nt =>
                match data.line_items with
                | none => .error .keyError
                | some items =>
                  match buildLines items 0 0 0 with
                  | .error e => .error e
                  | .ok (lineEls, n, w, d) =>
                    .ok ((if cfg.mds_test = "Y" then [el "Test" cfg.mds_test] else []) ++
                      [el "OrderID" (pyIntStr onum), el "OrderDate" dateStr] ++
                      ship ++ bill ++
                      [el "OrderTotal" total, el "OrderNotes" nt,
                       Element.mk "Lines" [] none lineEls], n, w, d)

/-- The `MDSOrder` root: `xml:lang` attribute, client credentials, then
the `Order` node. -/
def mkRoot (cfg : Config) (orderChildren : List Element) : Element :=
  .mk "MDSOrder" [("xml:lang", "en-US")] none
    [el "ClientCode" cfg.client_code, el "ClientSignature" cfg.client_signature,
     .mk "Order" [] none orderChildren]

/-- The debug record emitted once the request is authenticated. -/
def dbgLog : LogEntry := ⟨.debug, "Got Shopify webhook"⟩

/-- Lines 201–205: the informational records about ignored wholesale and
decorative-cover lines, each emitted only when its count is positive. -/
def countLogs (onum : Int) (w d : Nat) : List LogEntry :=
  (if w > 0 then
    [⟨.info, "Ignoring " ++ pyStrNat w ++ " wholesale lines in order #" ++
      pyIntStr onum ++ " from Shopify."⟩] else []) ++
  (if d > 0 then
    [⟨.info, "Ignoring " ++ pyStrNat d ++ " decorative cover lines in order #" ++
      pyIntStr onum ++ " from Shopify."⟩] else [])

/-- Lines 227–238: the outbound POST of the document (recorded in `sent`),
`xmltodict.parse` of the response — whose exceptions are raised OUTSIDE
any `try` and therefore escape — and the acknowledgment check, whose own
failures are swallowed by the bare `except` with an error-level record
carrying the full response text. -/
def sendToMds (root : Element) (onum : Int) (preLogs : List LogEntry)
    (mds : MdsResponse) : RunResult :=
  match mds.parsed with
  | .error e => ⟨.error e, some root, preLogs⟩
  | .ok resp =>
    if ackOk resp then
      ⟨.ok (200, "OK"), some root,
       preLogs ++ [⟨.info, "Order #" ++ pyIntStr onum ++ " successfully sent to MDS."⟩]⟩
    else
      ⟨.ok (200, "OK"), some root,
       preLogs ++ [⟨.error, "Problem sending Order #" ++ pyIntStr onum ++
         " to MDS. Response: " ++ mds.text ++ "."⟩]⟩

/-- Lines 86–238 of `webhook`: everything after HMAC verification.
Business filters in source order (refund, missing shipping address,
non-US country), each formatting its log via `data['order_number']`;
document construction under `except KeyError`; wholesale / decorative /
all-excluded accounting; the outbound POST and acknowledgment check. -/
def processEvent (cfg : Config) (data : OrderEvent) (mds : MdsResponse) : RunResult :=
  if data.refunds_truthy then
    match data.order_number with
    | none => ⟨.error .keyError, none, [dbgLog]⟩
    | some n =>
      ⟨.ok (200, "OK"), none,
       [dbgLog, ⟨.error, "Discarding order #" ++ pyIntStr n ++ " from Shopify: refund."⟩]⟩
  else
    match data.shipping_address with
    | none =>
      match data.order_number with
      | none => ⟨.error .keyError, none, [dbgLog]⟩
      | some n =>
        ⟨.ok (200, "OK"), none,
         [dbgLog, ⟨.error,
           "Problem processing order #" ++ pyIntStr n ++ " from Shopify: no shipping address."⟩]⟩
    | some sa =>
      match sa.country_code with
      | none => ⟨.error .keyError, none, [dbgLog]⟩
      | some cc =>
        if cc ≠ "US" then
          match data.order_number with
          | none => ⟨.error .keyError, none, [dbgLog]⟩
          | some n =>
            ⟨.ok (200, "OK"), none,
             [dbgLog, ⟨.error,
               "International order #" ++ pyIntStr n ++ " from Shopify - not sent to MDS."⟩]⟩
        else
          match buildOrder cfg data with
          | .error .keyError =>
            match data.order_number with
            | none => ⟨.error .keyError, none, [dbgLog]⟩
            | some n =>
              ⟨.ok (200, "OK"), none,
               [dbgLog, ⟨.error, "Problem parsing order #" ++ pyIntStr n ++ " from Shopify."⟩]⟩
          | .error e => ⟨.error e, none, [dbgLog]⟩
          | .ok (els, n, w, d) =>
            match data.order_number with
            | none => ⟨.error .keyError, none, [dbgLog]⟩
            | some onum =>
              if n = 0 then
                ⟨.ok (200, "OK"), none,
                 dbgLog :: countLogs onum w d ++
                   [⟨.info, "Ignoring order #" ++ pyIntStr onum ++
                     " from Shopify - all wholesale or decorative covers."⟩]⟩
              else
                sendToMds (mkRoot cfg els) onum (dbgLog :: countLogs onum w d) mds

/-- The `/webhook` handler: structural validation (header present and
body parseable, else 400 "missing data"), HMAC verification against the
raw body (else 400 "failed validation"), then `processEvent`. -/
def webhook (cfg : Config) (req : Request) (mds : MdsResponse) : RunResult :=
  match req.hmacHeader, req.json with
  | none, _ =>
    ⟨.ok (400, "Bad Request (missing data)"), none, [⟨.error, "Error receiving webhook"⟩]⟩
  | some _, none =>
    ⟨.ok (400, "Bad Request (missing data)"), none, [⟨.error, "Error receiving webhook"⟩]⟩
  | some hdr, some data =>
    if _hmac_is_valid cfg.secret req.rawBody hdr then processEvent cfg data mds
    else
      ⟨.ok (400, "Bad Request (failed validation)"), none,
       [⟨.error, "Error validating webhook"⟩]⟩

/-! ## Observations on the outbound document -/

/-- The first child with the given tag (`None` if absent). -/
def findTag (es : List Element) (t : String) : Option Element :=
  es.find? fun e => e.tag == t

/-- A placeholder element for total lookups. -/
def emptyEl : Element := .mk "" [] none []

/-- The children of the `Order` node of a document. -/
def orderChildren (root : Element) : List Element :=
  ((findTag root.children "Order").getD emptyEl).children

/-- The children of the `Lines` node (the emitted `Line` elements). -/
def linesChildren (root : Element) : List Element :=
  ((findTag (orderChildren root) "Lines").getD emptyEl).children

/-- The text of the `OrderDate` element. -/
def orderDateText (root : Element) : Option String :=
  (findTag (orderChildren root) "OrderDate").bind Element.text

/-- Is the line item's SKU present and `"WS"`-prefixed (wholesale)? -/
def skuWS (li : LineItem) : Bool :=
  match li.sku with
  | some s => pyStartswith s "WS"
  | none => false

/-- Is the line item's SKU present and `"DC"`-prefixed (decorative cover)? -/
def skuDC (li : LineItem) : Bool :=
  match li.sku with
  | some s => pyStartswith s "DC"
  | none => false

/-- Is the line item retained (neither wholesale nor decorative cover)? -/
def skuRetained (li : LineItem) : Bool := !skuWS li && !skuDC li

/-- The claimed shape of one emitted `Line` element: sequential number
zero-padded to three digits, SKU as both item ids, title as description,
price, and stringified quantity. -/
def lineElemSpec (pos : Nat) (li : LineItem) : Element :=
  .mk "Line" [("number", zfill 3 (pyStrNat pos))] none
    [el "CUSTItemID" (li.sku.getD ""), el "RetailerItemID" (li.sku.getD ""),
     el "Description" (li.title.getD ""), el "PricePerUnit" (li.price.getD ""),
     el "Qty" (pyIntStr (li.quantity.getD 0))]

/-- The `Line` elements an error-free loop pass produces, numbering the
retained items from `k + 1`. -/
def linesSpec (k : Nat) : List LineItem → List Element
  | [] => []
  | li :: rest =>
    if skuRetained li then lineElemSpec (k + 1) li :: linesSpec (k + 1) rest
    else linesSpec k rest

/-! ## Lemmas about the line-item loop -/

theorem startsWS_not_DC (s : String) (h : pyStartswith s "WS" = true) :
    pyStartswith s "DC" = false := by
  unfold pyStartswith at h ⊢
  rw [show ("WS".data) = ['W', 'S'] from rfl] at h
  rw [show ("DC".data) = ['D', 'C'] from rfl]
  cases hd : s.data with
  | nil => rw [hd] at h; exact absurd h (by simp [pyStartswith.listPrefixOf])
  | cons c cs =>
    rw [hd] at h
    simp only [pyStartswith.listPrefixOf, Bool.and_eq_true, beq_iff_eq] at h
    obtain ⟨hc, -⟩ := h
    simp [pyStartswith.listPrefixOf, ← hc]

theorem skuWS_dc_false (li : LineItem) (h : skuWS li = true) : skuDC li = false := by
  cases hs : li.sku with
  | none => simp [skuDC, hs]
  | some s =>
    simp only [skuWS, hs] at h
    simp only [skuDC, hs]
    exact startsWS_not_DC s h

theorem count_partition (l : List LineItem) :
    l.countP skuWS + l.countP skuDC + l.countP skuRetained = l.length := by
  induction l with
  | nil => simp
  | cons li rest ih =>
    have key : (if skuWS li = true then 1 else 0) + (if skuDC li = true then 1 else 0) +
        (if skuRetained li = true then 1 else 0) = 1 := by
      cases hws : skuWS li with
      | false =>
        cases hdc : skuDC li with
        | false =>
          have hret : skuRetained li = true := by simp [skuRetained, hws, hdc]
          simp [hws, hdc, hret]
        | true =>
          have hret : skuRetained li = false := by simp [skuRetained, hdc]
          simp [hws, hdc, hret]
      | true =>
        have hdc := skuWS_dc_false li hws
        have hret : skuRetained li = false := by simp [skuRetained, hws]
        simp [hws, hdc, hret]
    simp only [List.countP_cons, List.length_cons]
    omega

theorem buildLines_ok (items : List LineItem) :
    ∀ n w d els n2 w2 d2, buildLines items n w d = .ok (els, n2, w2, d2) →
      els = linesSpec n items ∧ n2 = n + items.countP skuRetained ∧
      w2 = w + items.countP skuWS ∧ d2 = d + items.countP skuDC := by
  induction items with
  | nil =>
    intro n w d els n2 w2 d2 h
    simp only [buildLines, Except.ok.injEq, Prod.mk.injEq] at h
    obtain ⟨h1, h2, h3, h4⟩ := h
    simp [linesSpec, ← h1, ← h2, ← h3, ← h4]
  | cons li rest ih =>
    intro n w d els n2 w2 d2 h
    unfold buildLines at h
    cases hs : li.sku with
    | none => rw [hs] at h; exact absurd h (by simp)
    | some sku =>
      rw [hs] at h
      simp only at h
      by_cases hws : pyStartswith sku "WS" = true
      · rw [if_pos hws] at h
        have hWS : skuWS li = true := by simp [skuWS, hs, hws]
        have hDC := skuWS_dc_false li hWS
        have hRet : skuRetained li = false := by simp [skuRetained, hWS]
        obtain ⟨h1, h2, h3, h4⟩ := ih n (w + 1) d els n2 w2 d2 h
        refine ⟨?_, ?_, ?_, ?_⟩
        · rw [h1]; simp [linesSpec, hRet]
        · rw [h2]; simp [List.countP_cons, hRet]
        · rw [h3]; simp [List.countP_cons, hWS]; omega
        · rw [h4]; simp [List.countP_cons, hDC]
      · rw [if_neg hws] at h
        by_cases hdc : pyStartswith sku "DC" = true
        · rw [if_pos hdc] at h
          have hWS : skuWS li = false := by simp [skuWS, hs]; exact (Bool.not_eq_true _).mp hws
          have hDC : skuDC li = true := by simp [skuDC, hs, hdc]
          have hRet : skuRetained li = false := by simp [skuRetained, hDC]
          obtain ⟨h1, h2, h3, h4⟩ := ih n w (d + 1) els n2 w2 d2 h
          refine ⟨?_, ?_, ?_, ?_⟩
          · rw [h1]; simp [linesSpec, hRet]
          · rw [h2]; simp [List.countP_cons, hRet]
          · rw [h3]; simp [List.countP_cons, hWS]
          · rw [h4]; simp [List.countP_cons, hDC]; omega
        · rw [if_neg hdc] at h
          have hWS : skuWS li = false := by simp [skuWS, hs]; exact (Bool.not_eq_true _).mp hws
          have hDC : skuDC li = false := by simp [skuDC, hs]; exact (Bool.not_eq_true _).mp hdc
          have hRet : skuRetained li = true := by simp [skuRetained, hWS, hDC]
          cases ht : li.title with
          | none => rw [ht] at h; exact absurd h (by simp)
          | some title =>
            rw [ht] at h
            cases hp : li.price with
            | none => rw [hp] at h; exact absurd h (by simp)
            | some price =>
              rw [hp] at h
              cases hq : li.quantity with
              | none => rw [hq] at h; exact absurd h (by simp)
              | some qty =>
                rw [hq] at h
                simp only at h
                cases hr : buildLines rest (n + 1) w d with
                | error e => rw [hr] at h; exact absurd h (by simp)
                | ok tup =>
                  obtain ⟨els0, n0, w0, d0⟩ := tup
                  rw [hr] at h
                  simp only [Except.ok.injEq, Prod.mk.injEq] at h
                  obtain ⟨h1, h2, h3, h4⟩ := h
                  obtain ⟨g1, g2, g3, g4⟩ := ih (n + 1) w d els0 n0 w0 d0 hr
                  subst h2 h3 h4
                  refine ⟨?_, ?_, ?_, ?_⟩
                  · rw [← h1, g1]
                    simp [linesSpec, hRet, lineElemSpec, hs, ht, hp, hq]
                  · rw [g2]; simp [List.countP_cons, hRet]; omega
                  · rw [g3]; simp [List.countP_cons, hWS]
                  · rw [g4]; simp [List.countP_cons, hDC]

theorem linesSpec_length (k : Nat) (items : List LineItem) :
    (linesSpec k items).length = items.countP skuRetained := by
  induction items generalizing k with
  | nil => simp [linesSpec]
  | cons li rest ih =>
    cases hr : skuRetained li <;>
      simp [linesSpec, hr, List.countP_cons, ih]

theorem linesSpec_enum (items : List LineItem) (k : Nat) :
    linesSpec k items =
      ((items.filter skuRetained).enumFrom (k + 1)).map fun p => lineElemSpec p.1 p.2 := by
  induction items generalizing k with
  | nil => simp [linesSpec]
  | cons li rest ih =>
    cases hr : skuRetained li with
    | true => simp [linesSpec, hr, List.filter_cons, List.enumFrom, ih]
    | false => simp [linesSpec, hr, List.filter_cons, ih]

/-! ## Inversion lemmas for the handler's control flow -/

theorem findTag_cons_false {e : Element} {es : List Element} {t : String}
    (h : (e.tag == t) = false) : findTag (e :: es) t = findTag es t := by
  simp [findTag, List.find?, h]

theorem findTag_append_skip {es1 es2 : List Element} {t : String}
    (h : ∀ e ∈ es1, (e.tag == t) = false) : findTag (es1 ++ es2) t = findTag es2 t := by
  induction es1 with
  | nil => simp
  | cons e es ih =>
    rw [List.cons_append, findTag_cons_false (h e (by simp))]
    exact ih fun e2 he => h e2 (by simp [he])

theorem shipEls_shape (data : OrderEvent) (ship : List Element)
    (h : shipEls data = .ok ship) :
    ship = [] ∨ ∃ c nm a1 a2 ci pc cc z ph em,
      ship = [el "ShipCompany" c, el "Shipname" nm, el "ShipAddress1" a1,
        el "ShipAddress2" a2, el "ShipCity" ci, el "ShipState" pc, el "ShipCountry" cc,
        el "ShipZip" z, el "ShipPhone" ph, el "ShipEmail" em] := by
  unfold shipEls at h
  cases hA : data.shipping_address with
  | none => simp only [hA] at h; injection h with h2; exact Or.inl h2.symm
  | some sa =>
  simp only [hA] at h
  cases f1 : sa.company with
  | none => simp only [f1] at h; exact absurd h (by simp)
  | some c =>
  simp only [f1] at h
  cases f2 : sa.name with
  | none => simp only [f2] at h; exact absurd h (by simp)
  | some nm =>
  simp only [f2] at h
  cases f3 : sa.address1 with
  | none => simp only [f3] at h; exact absurd h (by simp)
  | some a1 =>
  simp only [f3] at h
  cases f4 : sa.address2 with
  | none => simp only [f4] at h; exact absurd h (by simp)
  | some a2 =>
  simp only [f4] at h
  cases f5 : sa.city with
  | none => simp only [f5] at h; exact absurd h (by simp)
  | some ci =>
  simp only [f5] at h
  cases f6 : sa.province_code with
  | none => simp only [f6] at h; exact absurd h (by simp)
  | some pc =>
  simp only [f6] at h
  cases f7 : sa.country_code with
  | none => simp only [f7] at h; exact absurd h (by simp)
  | some cc =>
  simp only [f7] at h
  cases f8 : sa.zip with
  | none => simp only [f8] at h; exact absurd h (by simp)
  | some z =>
  simp only [f8] at h
  cases f9 : sa.phone with
  | none => simp only [f9] at h; exact absurd h (by simp)
  | some ph =>
  simp only [f9] at h
  cases f10 : data.contact_email with
  | none => simp only [f10] at h; exact absurd h (by simp)
  | some em =>
  simp only [f10] at h
  injection h with h2
  exact Or.inr ⟨c, nm, a1, a2, ci, pc, cc, z, ph, em, h2.symm⟩

theorem billEls_shape (data : OrderEvent) (bill : List Element)
    (h : billEls data = .ok bill) :
    bill = [] ∨ ∃ c nm a1 a2 ci pc cc z,
      bill = [el "BillCompany" c, el "Billname" nm, el "BillAddress1" a1,
        el "BillAddress2" a2, el "BillCity" ci, el "BillState" pc, el "BillCountry" cc,
        el "BillZip" z] := by
  unfold billEls at h
  cases hA : data.billing_address with
  | none => simp only [hA] at h; injection h with h2; exact Or.inl h2.symm
  | some ba =>
  simp only [hA] at h
  cases f1 : ba.company with
  | none => simp only [f1] at h; exact absurd h (by simp)
  | some c =>
  simp only [f1] at h
  cases f2 : ba.name with
  | none => simp only [f2] at h; exact absurd h (by simp)
  | some nm =>
  simp only [f2] at h
  cases f3 : ba.address1 with
  | none => simp only [f3] at h; exact absurd h (by simp)
  | some a1 =>
  simp only [f3] at h
  cases f4 : ba.address2 with
  | none => simp only [f4] at h; exact absurd h (by simp)
  | some a2 =>
  simp only [f4] at h
  cases f5 : ba.city with
  | none => simp only [f5] at h; exact absurd h (by simp)
  | some ci =>
  simp only [f5] at h
  cases f6 : ba.province_code with
  | none => simp only [f6] at h; exact absurd h (by simp)
  | some pc =>
  simp only [f6] at h
  cases f7 : ba.country_code with
  | none => simp only [f7] at h; exact absurd h (by simp)
  | some cc =>
  simp only [f7] at h
  cases f8 : ba.zip with
  | none => simp only [f8] at h; exact absurd h (by simp)
  | some z =>
  simp only [f8] at h
  injection h with h2
  exact Or.inr ⟨c, nm, a1, a2, ci, pc, cc, z, h2.symm⟩

theorem shipEls_tags (data : OrderEvent) (ship : List Element)
    (h : shipEls data = .ok ship) :
    ∀ e ∈ ship, (e.tag == "Lines") = false ∧ (e.tag == "OrderDate") = false := by
  rcases shipEls_shape data ship h with h2 | ⟨c, nm, a1, a2, ci, pc, cc, z, ph, em, h2⟩ <;>
    subst h2
  · intro e he; cases he
  · intro e he
    fin_cases he <;> exact ⟨rfl, rfl⟩

theorem billEls_tags (data : OrderEvent) (bill : List Element)
    (h : billEls data = .ok bill) :
    ∀ e ∈ bill, (e.tag == "Lines") = false ∧ (e.tag == "OrderDate") = false := by
  rcases billEls_shape data bill h with h2 | ⟨c, nm, a1, a2, ci, pc, cc, z, h2⟩ <;> subst h2
  · intro e he; cases he
  · intro e he
    fin_cases he <;> exact ⟨rfl, rfl⟩

theorem buildOrder_ok (cfg : Config) (data : OrderEvent) (els : List Element) (n w d : Nat)
    (h : buildOrder cfg data = .ok (els, n, w, d)) :
    ∃ onum ca ymd ship bill total nt items lineEls,
      data.order_number = some onum ∧ data.created_at = some ca ∧
      strptime10 (ca.data.take 10) = some ymd ∧ ¬ymd.1 < 1900 ∧
      shipEls data = .ok ship ∧ billEls data = .ok bill ∧
      data.total_price = some total ∧ data.note = some nt ∧
      data.line_items = some items ∧ buildLines items 0 0 0 = .ok (lineEls, n, w, d) ∧
      els = (if cfg.mds_test = "Y" then [el "Test" cfg.mds_test] else []) ++
        [el "OrderID" (pyIntStr onum), el "OrderDate" (strftimeMdY ymd)] ++ ship ++ bill ++
        [el "OrderTotal" total, el "OrderNotes" nt, Element.mk "Lines" [] none lineEls] := by
  unfold buildOrder at h
  cases h1 : data.order_number with
  | none => simp only [h1] at h; exact absurd h (by simp)
  | some onum =>
  simp only [h1] at h
  cases h2 : data.created_at with
  | none => simp only [h2] at h; exact absurd h (by simp)
  | some ca =>
  simp only [h2] at h
  cases h3 : strptime10 (ca.data.take 10) with
  | none => simp only [h3] at h; exact absurd h (by simp)
  | some ymd =>
  simp only [h3] at h
  cases h3b : py2Strftime ymd with
  | error e => simp only [h3b] at h; exact absurd h (by simp)
  | ok dateStr =>
  simp only [h3b] at h
  have hge : ¬ymd.1 < 1900 := by
    intro hlt
    unfold py2Strftime at h3b
    rw [if_pos hlt] at h3b
    exact Except.noConfusion h3b
  have hds : dateStr = strftimeMdY ymd := by
    unfold py2Strftime at h3b
    rw [if_neg hge] at h3b
    exact (Except.ok.inj h3b).symm
  cases h4 : shipEls data with
  | error e => simp only [h4] at h; exact absurd h (by simp)
  | ok ship =>
  simp only [h4] at h
  cases h5 : billEls data with
  | error e => simp only [h5] at h; exact absurd h (by simp)
  | ok bill =>
  simp only [h5] at h
  cases h6 : data.total_price with
  | none => simp only [h6] at h; exact absurd h (by simp)
  | some total =>
  simp only [h6] at h
  cases h7 : data.note with
  | none => simp only [h7] at h; exact absurd h (by simp)
  | some nt =>
  simp only [h7] at h
  cases h8 : data.line_items with
  | none => simp only [h8] at h; exact absurd h (by simp)
  | some items =>
  simp only [h8] at h
  cases h9 : buildLines items 0 0 0 with
  | error e => simp only [h9] at h; exact absurd h (by simp)
  | ok tup =>
  obtain ⟨lineEls, n0, w0, d0⟩ := tup
  simp only [h9] at h
  simp only [Except.ok.injEq, Prod.mk.injEq] at h
  obtain ⟨hels, hn, hw, hd⟩ := h
  subst hn hw hd
  rw [hds] at hels
  exact ⟨onum, ca, ymd, ship, bill, total, nt, items, lineEls, rfl, rfl, h3, hge, rfl, rfl,
    rfl, rfl, rfl, h9, hels.symm⟩

theorem buildOrder_pre1900 (cfg : Config) (data : OrderEvent) (onum : Int) (ca : String)
    (ymd : Nat × Nat × Nat) (ho : data.order_number = some onum)
    (hca : data.created_at = some ca) (hp : strptime10 (ca.data.take 10) = some ymd)
    (hy : ymd.1 < 1900) : buildOrder cfg data = .error .valueError := by
  unfold buildOrder
  simp [ho, hca, hp, py2Strftime, hy]

theorem processEvent_refund (cfg : Config) (data : OrderEvent) (mds : MdsResponse) (n : Int)
    (hr : data.refunds_truthy = true) (ho : data.order_number = some n) :
    processEvent cfg data mds =
      ⟨.ok (200, "OK"), none,
       [dbgLog, ⟨.error, "Discarding order #" ++ pyIntStr n ++ " from Shopify: refund."⟩]⟩ := by
  unfold processEvent
  simp [hr, ho]

theorem processEvent_noship (cfg : Config) (data : OrderEvent) (mds : MdsResponse) (n : Int)
    (hr : data.refunds_truthy = false) (hs : data.shipping_address = none)
    (ho : data.order_number = some n) :
    processEvent cfg data mds =
      ⟨.ok (200, "OK"), none,
       [dbgLog, ⟨.error,
         "Problem processing order #" ++ pyIntStr n ++ " from Shopify: no shipping address."⟩]⟩ := by
  unfold processEvent
  simp [hr, hs, ho]

theorem processEvent_nonUS (cfg : Config) (data : OrderEvent) (mds : MdsResponse) (n : Int)
    (sa : Address) (cc : String) (hr : data.refunds_truthy = false)
    (hs : data.shipping_address = some sa) (hc : sa.country_code = some cc)
    (hne : cc ≠ "US") (ho : data.order_number = some n) :
    processEvent cfg data mds =
      ⟨.ok (200, "OK"), none,
       [dbgLog, ⟨.error,
         "International order #" ++ pyIntStr n ++ " from Shopify - not sent to MDS."⟩]⟩ := by
  unfold processEvent
  simp [hr, hs, hc, ho, hne]

theorem processEvent_keyErr (cfg : Config) (data : OrderEvent) (mds : MdsResponse) (n : Int)
    (sa : Address) (hr : data.refunds_truthy = false) (hs : data.shipping_address = some sa)
    (hc : sa.country_code = some "US") (hb : buildOrder cfg data = .error .keyError)
    (ho : data.order_number = some n) :
    processEvent cfg data mds =
      ⟨.ok (200, "OK"), none,
       [dbgLog, ⟨.error, "Problem parsing order #" ++ pyIntStr n ++ " from Shopify."⟩]⟩ := by
  unfold processEvent
  simp [hr, hs, hc, hb, ho]

theorem processEvent_valueErr (cfg : Config) (data : OrderEvent) (mds : MdsResponse)
    (sa : Address) (hr : data.refunds_truthy = false) (hs : data.shipping_address = some sa)
    (hc : sa.country_code = some "US") (hb : buildOrder cfg data = .error .valueError) :
    processEvent cfg data mds = ⟨.error .valueError, none, [dbgLog]⟩ := by
  unfold processEvent
  simp [hr, hs, hc, hb]

theorem processEvent_zero (cfg : Config) (data : OrderEvent) (mds : MdsResponse)
    (sa : Address) (els : List Element) (w d : Nat) (onum : Int)
    (hr : data.refunds_truthy = false) (hs : data.shipping_address = some sa)
    (hc : sa.country_code = some "US") (hb : buildOrder cfg data = .ok (els, 0, w, d))
    (ho : data.order_number = some onum) :
    processEvent cfg data mds =
      ⟨.ok (200, "OK"), none,
       dbgLog :: countLogs onum w d ++
         [⟨.info, "Ignoring order #" ++ pyIntStr onum ++
           " from Shopify - all wholesale or decorative covers."⟩]⟩ := by
  unfold processEvent
  simp [hr, hs, hc, hb, ho]

theorem processEvent_forward (cfg : Config) (data : OrderEvent) (mds : MdsResponse)
    (sa : Address) (els : List Element) (n w d : Nat) (onum : Int)
    (hr : data.refunds_truthy = false) (hs : data.shipping_address = some sa)
    (hc : sa.country_code = some "US") (hb : buildOrder cfg data = .ok (els, n, w, d))
    (ho : data.order_number = some onum) (hn : n ≠ 0) :
    processEvent cfg data mds =
      sendToMds (mkRoot cfg els) onum (dbgLog :: countLogs onum w d) mds := by
  unfold processEvent
  simp [hr, hs, hc, hb, ho, hn]

theorem processEvent_nonum (cfg : Config) (data : OrderEvent) (mds : MdsResponse)
    (ho : data.order_number = none)
    (hbranch : data.refunds_truthy = true ∨
      (data.refunds_truthy = false ∧ data.shipping_address = none) ∨
      (∃ sa cc, data.refunds_truthy = false ∧ data.shipping_address = some sa ∧
        sa.country_code = some cc ∧ cc ≠ "US") ∨
      (∃ sa, data.refunds_truthy = false ∧ data.shipping_address = some sa ∧
        sa.country_code = some "US" ∧ buildOrder cfg data = .error .keyError)) :
    processEvent cfg data mds = ⟨.error .keyError, none, [dbgLog]⟩ := by
  unfold processEvent
  rcases hbranch with hr | ⟨hr, hs⟩ | ⟨sa, cc, hr, hs, hc, hne⟩ | ⟨sa, hr, hs, hc, hb⟩
  · simp [hr, ho]
  · simp [hr, hs, ho]
  · simp [hr, hs, hc, hne, ho]
  · simp [hr, hs, hc, hb, ho]

theorem processEvent_sent (cfg : Config) (data : OrderEvent) (mds : MdsResponse)
    (root : Element) (h : (processEvent cfg data mds).sent = some root) :
    ∃ sa els n w d onum, data.refunds_truthy = false ∧ data.shipping_address = some sa ∧
      sa.country_code = some "US" ∧ buildOrder cfg data = .ok (els, n, w, d) ∧
      data.order_number = some onum ∧ n ≠ 0 ∧ root = mkRoot cfg els := by
  unfold processEvent at h
  cases hr : data.refunds_truthy with
  | true =>
    cases ho : data.order_number <;> simp [hr, ho] at h
  | false =>
  cases hs : data.shipping_address with
  | none => cases ho : data.order_number <;> simp [hr, hs, ho] at h
  | some sa =>
  cases hc : sa.country_code with
  | none => simp [hr, hs, hc] at h
  | some cc =>
  by_cases hcc : cc = "US"
  case neg =>
    cases ho : data.order_number <;> simp [hr, hs, hc, hcc, ho] at h
  case pos =>
  subst hcc
  cases hb : buildOrder cfg data with
  | error e =>
    cases e <;> first
      | (cases ho : data.order_number <;> simp [hr, hs, hc, hb, ho] at h)
      | simp [hr, hs, hc, hb] at h
  | ok tup =>
  obtain ⟨els, n, w, d⟩ := tup
  cases ho : data.order_number with
  | none => simp [hr, hs, hc, hb, ho] at h
  | some onum =>
  by_cases hn : n = 0
  · simp [hr, hs, hc, hb, ho, hn] at h
  · simp only [hr, hs, hc, hb, ho, if_neg hn] at h
    unfold sendToMds at h
    cases hm : mds.parsed with
    | error e =>
      simp [hm] at h
      exact ⟨sa, els, n, w, d, onum, rfl, rfl, hc, rfl, rfl, hn, h.symm⟩
    | ok resp =>
      by_cases hack : ackOk resp
      · simp [hm, hack] at h
        exact ⟨sa, els, n, w, d, onum, rfl, rfl, hc, rfl, rfl, hn, h.symm⟩
      · simp [hm, hack] at h
        exact ⟨sa, els, n, w, d, onum, rfl, rfl, hc, rfl, rfl, hn, h.symm⟩

theorem webhook_processes (cfg : Config) (req : Request) (mds : MdsResponse)
    (hdr : String) (data : OrderEvent) (hh : req.hmacHeader = some hdr)
    (hj : req.json = some data) (hv : _hmac_is_valid cfg.secret req.rawBody hdr = true) :
    webhook cfg req mds = processEvent cfg data mds := by
  unfold webhook
  simp [hh, hj, hv]

theorem webhook_sent_inv (cfg : Config) (req : Request) (mds : MdsResponse) (root : Element)
    (h : (webhook cfg req mds).sent = some root) :
    ∃ hdr data, req.hmacHeader = some hdr ∧ req.json = some data ∧
      _hmac_is_valid cfg.secret req.rawBody hdr = true ∧
      (processEvent cfg data mds).sent = some root := by
  unfold webhook at h
  cases hh : req.hmacHeader with
  | none => simp [hh] at h
  | some hdr =>
  cases hj : req.json with
  | none => simp [hh, hj] at h
  | some data =>
  cases hv : _hmac_is_valid cfg.secret req.rawBody hdr with
  | false => simp [hh, hj, hv] at h
  | true =>
    simp [hh, hj, hv] at h
    exact ⟨hdr, data, rfl, rfl, hv, h⟩

theorem orderChildren_mkRoot (cfg : Config) (els : List Element) :
    orderChildren (mkRoot cfg els) = els := rfl

theorem buildOrder_els_pre_tags (cfg : Config) (data : OrderEvent)
    (onum : Int) (ymd : Nat × Nat × Nat) (ship bill : List Element)
    (hsh : shipEls data = .ok ship) (hbl : billEls data = .ok bill) :
    ∀ e ∈ (if cfg.mds_test = "Y" then [el "Test" cfg.mds_test] else []) ++
      [el "OrderID" (pyIntStr onum), el "OrderDate" (strftimeMdY ymd)] ++ ship ++ bill,
      (e.tag == "Lines") = false := by
  intro e he
  simp only [List.mem_append] at he
  rcases he with ((hA | hB) | hS) | hBl
  · split at hA
    · simp only [List.mem_singleton] at hA
      subst hA; rfl
    · cases hA
  · simp only [List.mem_cons, List.mem_singleton] at hB
    rcases hB with hB | hB | hB
    · subst hB; rfl
    · subst hB; rfl
    · cases hB
  · exact (shipEls_tags data ship hsh e hS).1
  · exact (billEls_tags data bill hbl e hBl).1

theorem buildOrder_linesChildren (cfg : Config) (data : OrderEvent) (els : List Element)
    (n w d : Nat) (hb : buildOrder cfg data = .ok (els, n, w, d)) :
    ∃ items lineEls, data.line_items = some items ∧
      buildLines items 0 0 0 = .ok (lineEls, n, w, d) ∧
      linesChildren (mkRoot cfg els) = lineEls := by
  obtain ⟨onum, ca, ymd, ship, bill, total, nt, items, lineEls,
    h1, h2, h3, hge, h4, h5, h6, h7, h8, h9, hels⟩ := buildOrder_ok cfg data els n w d hb
  refine ⟨items, lineEls, h8, h9, ?_⟩
  subst hels
  unfold linesChildren
  rw [orderChildren_mkRoot]
  rw [findTag_append_skip (buildOrder_els_pre_tags cfg data onum ymd ship bill h4 h5)]
  rfl

theorem buildOrder_orderDate (cfg : Config) (data : OrderEvent) (els : List Element)
    (n w d : Nat) (hb : buildOrder cfg data = .ok (els, n, w, d)) :
    ∃ ca ymd, data.created_at = some ca ∧ strptime10 (ca.data.take 10) = some ymd ∧
      orderDateText (mkRoot cfg els) = some (strftimeMdY ymd) := by
  obtain ⟨onum, ca, ymd, ship, bill, total, nt, items, lineEls,
    h1, h2, h3, hge, h4, h5, h6, h7, h8, h9, hels⟩ := buildOrder_ok cfg data els n w d hb
  refine ⟨ca, ymd, h2, h3, ?_⟩
  subst hels
  unfold orderDateText
  rw [orderChildren_mkRoot]
  rw [List.append_assoc, List.append_assoc, List.append_assoc]
  have hpre : ∀ e ∈ (if cfg.mds_test = "Y" then [el "Test" cfg.mds_test] else []),
      (e.tag == "OrderDate") = false := by
    intro e he
    split at he
    · simp only [List.mem_singleton] at he; subst he; rfl
    · cases he
  rw [findTag_append_skip hpre]
  rfl

/-! ## `strptime` on ten digit-shaped characters -/

theorem isDigitC_digitChar (n : Nat) (h : n ≤ 9) : isDigitC (digitChar n) = true := by
  interval_cases n <;> decide

theorem dval_digitChar (n : Nat) (h : n ≤ 9) : dval (digitChar n) = n := by
  interval_cases n <;> decide

theorem daysInMonth_le (y m : Nat) : daysInMonth y m ≤ 31 := by
  unfold daysInMonth
  split
  · split <;> omega
  · split <;> omega

theorem strptime10_digits (y1 y2 y3 y4 m1 m2 e1 e2 : Nat)
    (g1 : y1 ≤ 9) (g2 : y2 ≤ 9) (g3 : y3 ≤ 9) (g4 : y4 ≤ 9)
    (g5 : m1 ≤ 9) (g6 : m2 ≤ 9) (g7 : e1 ≤ 9) (g8 : e2 ≤ 9)
    (hy : 1 ≤ 1000 * y1 + 100 * y2 + 10 * y3 + y4)
    (hm1 : 1 ≤ 10 * m1 + m2) (hm2 : 10 * m1 + m2 ≤ 12)
    (hd1 : 1 ≤ 10 * e1 + e2)
    (hd2 : 10 * e1 + e2 ≤ daysInMonth (1000 * y1 + 100 * y2 + 10 * y3 + y4) (10 * m1 + m2)) :
    strptime10 [digitChar y1, digitChar y2, digitChar y3, digitChar y4, '-',
      digitChar m1, digitChar m2, '-', digitChar e1, digitChar e2] =
      some (1000 * y1 + 100 * y2 + 10 * y3 + y4, 10 * m1 + m2, 10 * e1 + e2) := by
  have p4 : parse4 [digitChar y1, digitChar y2, digitChar y3, digitChar y4, '-',
      digitChar m1, digitChar m2, '-', digitChar e1, digitChar e2] =
      some (1000 * y1 + 100 * y2 + 10 * y3 + y4,
        ['-', digitChar m1, digitChar m2, '-', digitChar e1, digitChar e2]) := by
    simp [parse4, isDigitC_digitChar _ g1, isDigitC_digitChar _ g2, isDigitC_digitChar _ g3,
      isDigitC_digitChar _ g4, dval_digitChar _ g1, dval_digitChar _ g2, dval_digitChar _ g3,
      dval_digitChar _ g4]
  have pm : parseMonthF [digitChar m1, digitChar m2, '-', digitChar e1, digitChar e2] =
      some (10 * m1 + m2, ['-', digitChar e1, digitChar e2]) := by
    simp [parseMonthF, isDigitC_digitChar _ g5, isDigitC_digitChar _ g6,
      dval_digitChar _ g5, dval_digitChar _ g6, hm1, hm2]
  have pd : parseDayF [digitChar e1, digitChar e2] = some (10 * e1 + e2, []) := by
    have h31 : 10 * e1 + e2 ≤ 31 := le_trans hd2 (daysInMonth_le _ _)
    simp [parseDayF, isDigitC_digitChar _ g7, isDigitC_digitChar _ g8,
      dval_digitChar _ g7, dval_digitChar _ g8, hd1, h31]
  unfold strptime10
  rw [p4]
  simp only []
  rw [pm]
  simp only []
  rw [pd]
  simp [hy, hd2]

theorem strftimeMdY_digits (y1 y2 y3 y4 m1 m2 e1 e2 : Nat)
    (g1 : y1 ≤ 9) (g2 : y2 ≤ 9) (g3 : y3 ≤ 9) (g4 : y4 ≤ 9)
    (g5 : m1 ≤ 9) (g6 : m2 ≤ 9) (g7 : e1 ≤ 9) (g8 : e2 ≤ 9) :
    strftimeMdY (1000 * y1 + 100 * y2 + 10 * y3 + y4, 10 * m1 + m2, 10 * e1 + e2) =
      ⟨[digitChar m1, digitChar m2, '/', digitChar e1, digitChar e2, '/',
        digitChar y1, digitChar y2, digitChar y3, digitChar y4]⟩ := by
  simp only [strftimeMdY]
  have q1 : (10 * m1 + m2) / 10 = m1 := by omega
  have q2 : (10 * m1 + m2) % 10 = m2 := by omega
  have q3 : (10 * e1 + e2) / 10 = e1 := by omega
  have q4 : (10 * e1 + e2) % 10 = e2 := by omega
  have q5 : (1000 * y1 + 100 * y2 + 10 * y3 + y4) / 1000 % 10 = y1 := by omega
  have q6 : (1000 * y1 + 100 * y2 + 10 * y3 + y4) / 100 % 10 = y2 := by omega
  have q7 : (1000 * y1 + 100 * y2 + 10 * y3 + y4) / 10 % 10 = y3 := by omega
  have q8 : (1000 * y1 + 100 * y2 + 10 * y3 + y4) % 10 = y4 := by omega
  rw [q1, q2, q3, q4, q5, q6, q7, q8]

/-! ## Concrete fixtures for witnesses

The shared secret is the empty byte string and all example requests carry
an empty raw body, so a valid signature header is
`b64encode (hmacSha256 [] [])`. -/

/-- A valid signature for an empty body under the empty secret. -/
def exSig : String := b64encode (hmacSha256 [] [])

/-- Example configuration (test mode on). -/
def exCfg : Config := ⟨[], "Y", "TRQ", "SECRETSIG"⟩

/-- A fully populated US shipping/billing address. -/
def exShip : Address :=
  ⟨some "Acme", some "Jo Doe", some "1 Main St", some "Unit 2", some "Boston", some "MA",
   some "US", some "02139", some "5551234"⟩

/-- The retained example line item of the spec (`sku ABC123`). -/
def exItem : LineItem := ⟨some "ABC123", some "Widget", some "9.99", some 2⟩

/-- A wholesale line item (SKU prefixed `WS`). -/
def exItemWS : LineItem := ⟨some "WS77", some "Bulk", some "1.00", some 4⟩

/-- A decorative-cover line item (SKU prefixed `DC`). -/
def exItemDC : LineItem := ⟨some "DC01", some "Cover", some "2.00", some 1⟩

/-- A fully populated, forwardable order event (number 1001). -/
def exData : OrderEvent :=
  ⟨some 1001, some "2021-03-05T10:00:00Z", false, some exShip, some exShip,
   some "jo@example.com", some "9.99", some "note", some [exItem, exItemWS]⟩

/-- The authenticated request carrying `exData`. -/
def exReq : Request := ⟨some exSig, [], some exData⟩

/-- A downstream response whose acknowledgment is the success code. -/
def exMdsOk : MdsResponse :=
  ⟨"ack-ok", .ok (.dict [("CUSTOrderAck", .dict [("OrderAck", .dict [("Result", .str "1")])])])⟩

/-! ## The claims -/

/-- C2: signature verification succeeds iff the base64 HMAC-SHA256 of the
exact raw body bytes under the shared secret equals the header value; on
mismatch the handler responds 400 ("failed validation"), makes no outbound
call and does no further processing (no further log, no document). -/
theorem claim2_hmac (s b : List Nat) (hd : String) (cfg : Config) (req : Request)
    (mds : MdsResponse) (hdr : String) (data : OrderEvent)
    (hh : req.hmacHeader = some hdr) (hj : req.json = some data)
    (hv : _hmac_is_valid cfg.secret req.rawBody hdr = false) :
    (_hmac_is_valid s b hd = true ↔ b64encode (hmacSha256 s b) = hd) ∧
    webhook cfg req mds =
      ⟨.ok (400, "Bad Request (failed validation)"), none,
       [⟨.error, "Error validating webhook"⟩]⟩ := by
  constructor
  · unfold _hmac_is_valid
    exact beq_iff_eq
  · unfold webhook
    simp [hh, hj, hv]

/-- Witness for C2 at a concrete mismatching header. -/
theorem claim2_witness :
    (Request.mk (some "bogus") [] (some exData)).hmacHeader = some "bogus" ∧
    (Request.mk (some "bogus") [] (some exData)).json = some exData ∧
    _hmac_is_valid exCfg.secret (Request.mk (some "bogus") [] (some exData)).rawBody
      "bogus" = false ∧
    ((_hmac_is_valid [1, 2] [3] "x" = true ↔ b64encode (hmacSha256 [1, 2] [3]) = "x") ∧
      webhook exCfg (Request.mk (some "bogus") [] (some exData)) exMdsOk =
        ⟨.ok (400, "Bad Request (failed validation)"), none,
         [⟨.error, "Error validating webhook"⟩]⟩) :=
  ⟨rfl, rfl, rfl,
   claim2_hmac [1, 2] [3] "x" exCfg (Request.mk (some "bogus") [] (some exData)) exMdsOk
     "bogus" exData rfl rfl rfl⟩

/-- C8: a request lacking the `X-Shopify-Hmac-Sha256` header, or whose body
is not parseable JSON, gets a 400 response with a body indicating missing
data, with no outbound call and no further processing. -/
theorem claim8_missing_data (cfg : Config) (req : Request) (mds : MdsResponse)
    (h : req.hmacHeader = none ∨ req.json = none) :
    webhook cfg req mds =
      ⟨.ok (400, "Bad Request (missing data)"), none,
       [⟨.error, "Error receiving webhook"⟩]⟩ := by
  unfold webhook
  rcases h with h | h
  · simp [h]
  · cases hh : req.hmacHeader <;> simp [h, hh]

/-- Witness for C8 at a concrete request with no signature header. -/
theorem claim8_witness :
    ((Request.mk none [] (some exData)).hmacHeader = none ∨
      (Request.mk none [] (some exData)).json = none) ∧
    webhook exCfg (Request.mk none [] (some exData)) exMdsOk =
      ⟨.ok (400, "Bad Request (missing data)"), none,
       [⟨.error, "Error receiving webhook"⟩]⟩ :=
  ⟨Or.inl rfl, claim8_missing_data exCfg (Request.mk none [] (some exData)) exMdsOk (Or.inl rfl)⟩

/-- C3: for an authenticated, well-formed event (in particular carrying an
`order_number`), each business filter short-circuits with the 200 "OK"
response and no outbound POST, in source order: a truthy `refunds` field
alone suffices; otherwise a missing/falsy `shipping_address`; otherwise a
`country_code` other than `"US"`. -/
theorem claim3_filters (cfg : Config) (req : Request) (mds : MdsResponse)
    (hdr : String) (data : OrderEvent) (n : Int)
    (hh : req.hmacHeader = some hdr) (hj : req.json = some data)
    (hv : _hmac_is_valid cfg.secret req.rawBody hdr = true)
    (ho : data.order_number = some n) :
    (data.refunds_truthy = true →
      webhook cfg req mds =
        ⟨.ok (200, "OK"), none,
         [dbgLog, ⟨.error, "Discarding order #" ++ pyIntStr n ++ " from Shopify: refund."⟩]⟩) ∧
    (data.refunds_truthy = false → data.shipping_address = none →
      webhook cfg req mds =
        ⟨.ok (200, "OK"), none,
         [dbgLog, ⟨.error, "Problem processing order #" ++ pyIntStr n ++
           " from Shopify: no shipping address."⟩]⟩) ∧
    (∀ sa cc, data.refunds_truthy = false → data.shipping_address = some sa →
      sa.country_code = some cc → cc ≠ "US" →
      webhook cfg req mds =
        ⟨.ok (200, "OK"), none,
         [dbgLog, ⟨.error, "International order #" ++ pyIntStr n ++
           " from Shopify - not sent to MDS."⟩]⟩) := by
  refine ⟨?_, ?_, ?_⟩
  · intro hr
    rw [webhook_processes cfg req mds hdr data hh hj hv]
    exact processEvent_refund cfg data mds n hr ho
  · intro hr hs
    rw [webhook_processes cfg req mds hdr data hh hj hv]
    exact processEvent_noship cfg data mds n hr hs ho
  · intro sa cc hr hs hc hne
    rw [webhook_processes cfg req mds hdr data hh hj hv]
    exact processEvent_nonUS cfg data mds n sa cc hr hs hc hne ho

/-- A refund event (order 1001) used by the C3 witness. -/
def exDataRefund : OrderEvent :=
  ⟨some 1001, some "2021-03-05T10:00:00Z", true, some exShip, none,
   some "jo@example.com", some "9.99", some "note", some [exItem]⟩

/-- Witness for C3 at a concrete authenticated refund event. -/
theorem claim3_witness :
    ((Request.mk (some exSig) [] (some exDataRefund)).hmacHeader = some exSig ∧
      (Request.mk (some exSig) [] (some exDataRefund)).json = some exDataRefund ∧
      _hmac_is_valid exCfg.secret (Request.mk (some exSig) [] (some exDataRefund)).rawBody
        exSig = true ∧
      exDataRefund.order_number = some 1001) ∧
    (exDataRefund.refunds_truthy = true ∧
      webhook exCfg (Request.mk (some exSig) [] (some exDataRefund)) exMdsOk =
        ⟨.ok (200, "OK"), none,
         [dbgLog, ⟨.error, "Discarding order #" ++ pyIntStr 1001 ++
           " from Shopify: refund."⟩]⟩) :=
  ⟨⟨rfl, rfl, rfl, rfl⟩,
   ⟨rfl, (claim3_filters exCfg (Request.mk (some exSig) [] (some exDataRefund)) exMdsOk exSig
     exDataRefund 1001 rfl rfl rfl rfl).1 rfl⟩⟩

/-- C9: every business-exclusion branch and the field-extraction-failure
branch formats its log via `data['order_number']` before returning, so an
authenticated event reaching one of them without an `order_number` ends in
an uncaught `KeyError` (no 200 response, no outbound call, and the log
line itself is never emitted). -/
theorem claim9_nonum_keyerror (cfg : Config) (req : Request) (mds : MdsResponse)
    (hdr : String) (data : OrderEvent)
    (hh : req.hmacHeader = some hdr) (hj : req.json = some data)
    (hv : _hmac_is_valid cfg.secret req.rawBody hdr = true)
    (ho : data.order_number = none)
    (hbranch : data.refunds_truthy = true ∨
      (data.refunds_truthy = false ∧ data.shipping_address = none) ∨
      (∃ sa cc, data.refunds_truthy = false ∧ data.shipping_address = some sa ∧
        sa.country_code = some cc ∧ cc ≠ "US") ∨
      (∃ sa, data.refunds_truthy = false ∧ data.shipping_address = some sa ∧
        sa.country_code = some "US" ∧ buildOrder cfg data = .error .keyError)) :
    webhook cfg req mds = ⟨.error .keyError, none, [dbgLog]⟩ := by
  rw [webhook_processes cfg req mds hdr data hh hj hv]
  exact processEvent_nonum cfg data mds ho hbranch

/-- A refund event lacking `order_number`, used by the C9 witness. -/
def exDataNoNum : OrderEvent :=
  ⟨none, some "2021-03-05T10:00:00Z", true, some exShip, none,
   some "jo@example.com", some "9.99", some "note", some [exItem]⟩

/-- Witness for C9 at a concrete refund event without `order_number`. -/
theorem claim9_witness :
    ((Request.mk (some exSig) [] (some exDataNoNum)).hmacHeader = some exSig ∧
      (Request.mk (some exSig) [] (some exDataNoNum)).json = some exDataNoNum ∧
      _hmac_is_valid exCfg.secret (Request.mk (some exSig) [] (some exDataNoNum)).rawBody
        exSig = true ∧
      exDataNoNum.order_number = none ∧ exDataNoNum.refunds_truthy = true) ∧
    webhook exCfg (Request.mk (some exSig) [] (some exDataNoNum)) exMdsOk =
      ⟨.error .keyError, none, [dbgLog]⟩ :=
  ⟨⟨rfl, rfl, rfl, rfl, rfl⟩,
   claim9_nonum_keyerror exCfg (Request.mk (some exSig) [] (some exDataNoNum)) exMdsOk exSig
     exDataNoNum rfl rfl rfl rfl (Or.inl rfl)⟩

/-- Projections out of a successful `buildOrder` result, for concrete
instantiation of theorems quantified over its components. -/
def okEls (x : Except PyExc (List Element × Nat × Nat × Nat)) : List Element :=
  match x with
  | .ok (e, _, _, _) => e
  | .error _ => []

/-- The final `line_item_num` of a successful `buildOrder` result. -/
def okN (x : Except PyExc (List Element × Nat × Nat × Nat)) : Nat :=
  match x with
  | .ok (_, n, _, _) => n
  | .error _ => 0

/-- The final `wholesale_lines` of a successful `buildOrder` result. -/
def okW (x : Except PyExc (List Element × Nat × Nat × Nat)) : Nat :=
  match x with
  | .ok (_, _, w, _) => w
  | .error _ => 0

/-- The final `dc_lines` of a successful `buildOrder` result. -/
def okD (x : Except PyExc (List Element × Nat × Nat × Nat)) : Nat :=
  match x with
  | .ok (_, _, _, d) => d
  | .error _ => 0

/-- C5 counterexample: the claim promises 200 "OK" whenever a required
field is absent during document construction, but when the absent field is
`order_number` itself the `except KeyError:` handler's own log call
re-raises `KeyError`, so the handler terminates with an uncaught exception
instead of 200 "OK" (still no outbound call). -/
theorem claim5_counterexample :
    (webhook exCfg
      (Request.mk (some exSig) []
        (some ⟨none, some "2021-03-05T10:00:00Z", false, some exShip, none,
          some "jo@example.com", some "9.99", some "note", some [exItem]⟩)) exMdsOk).result =
      .error .keyError ∧
    (webhook exCfg
      (Request.mk (some exSig) []
        (some ⟨none, some "2021-03-05T10:00:00Z", false, some exShip, none,
          some "jo@example.com", some "9.99", some "note", some [exItem]⟩)) exMdsOk).result ≠
      .ok (200, "OK") ∧
    (webhook exCfg
      (Request.mk (some exSig) []
        (some ⟨none, some "2021-03-05T10:00:00Z", false, some exShip, none,
          some "jo@example.com", some "9.99", some "note", some [exItem]⟩)) exMdsOk).sent =
      none := by
  refine ⟨rfl, ?_, rfl⟩
  intro hc
  rw [show (webhook exCfg
      (Request.mk (some exSig) []
        (some ⟨none, some "2021-03-05T10:00:00Z", false, some exShip, none,
          some "jo@example.com", some "9.99", some "note", some [exItem]⟩)) exMdsOk).result =
      Except.error PyExc.keyError from rfl] at hc
  exact Except.noConfusion hc

/-- C5 as amended: provided the event carries an `order_number`, a missing
required field (`KeyError`) during document construction aborts it, logs
the failure with the order number, returns 200 "OK", and sends nothing
downstream. -/
theorem claim5_field_missing (cfg : Config) (req : Request) (mds : MdsResponse)
    (hdr : String) (data : OrderEvent) (sa : Address) (n : Int)
    (hh : req.hmacHeader = some hdr) (hj : req.json = some data)
    (hv : _hmac_is_valid cfg.secret req.rawBody hdr = true)
    (hr : data.refunds_truthy = false) (hs : data.shipping_address = some sa)
    (hc : sa.country_code = some "US") (ho : data.order_number = some n)
    (hb : buildOrder cfg data = .error .keyError) :
    webhook cfg req mds =
      ⟨.ok (200, "OK"), none,
       [dbgLog, ⟨.error, "Problem parsing order #" ++ pyIntStr n ++ " from Shopify."⟩]⟩ := by
  rw [webhook_processes cfg req mds hdr data hh hj hv]
  exact processEvent_keyErr cfg data mds n sa hr hs hc hb ho

/-- An event whose only retained line item lacks a `title`, used by the
C5 witness. -/
def exDataNoTitle : OrderEvent :=
  ⟨some 1001, some "2021-03-05T10:00:00Z", false, some exShip, none,
   some "jo@example.com", some "9.99", some "note",
   some [⟨some "ABC123", none, some "9.99", some 2⟩]⟩

/-- Witness for the amended C5 at a concrete event missing a line title. -/
theorem claim5_witness :
    (exDataNoTitle.order_number = some 1001 ∧
      buildOrder exCfg exDataNoTitle = .error .keyError) ∧
    webhook exCfg (Request.mk (some exSig) [] (some exDataNoTitle)) exMdsOk =
      ⟨.ok (200, "OK"), none,
       [dbgLog, ⟨.error, "Problem parsing order #" ++ pyIntStr 1001 ++ " from Shopify."⟩]⟩ :=
  ⟨⟨rfl, rfl⟩,
   claim5_field_missing exCfg (Request.mk (some exSig) [] (some exDataNoTitle)) exMdsOk exSig
     exDataNoTitle exShip 1001 rfl rfl rfl rfl rfl rfl rfl rfl⟩

/-- C10 counterexample: the claim promises an escaping `ValueError` for any
authenticated, non-excluded event whose `created_at` prefix is not a date,
but when `order_number` is also missing the `OrderID` extraction raises
`KeyError` first (caught), and the handler's log call re-raises `KeyError`
uncaught — the date is never parsed and no `ValueError` occurs. -/
theorem claim10_counterexample :
    (webhook exCfg
      (Request.mk (some exSig) []
        (some ⟨none, some "garbage!!!", false, some exShip, none,
          some "jo@example.com", some "9.99", some "note", some [exItem]⟩)) exMdsOk).result =
      .error .keyError ∧
    (webhook exCfg
      (Request.mk (some exSig) []
        (some ⟨none, some "garbage!!!", false, some exShip, none,
          some "jo@example.com", some "9.99", some "note", some [exItem]⟩)) exMdsOk).result ≠
      .error .valueError ∧
    (webhook exCfg
      (Request.mk (some exSig) []
        (some ⟨none, some "garbage!!!", false, some exShip, none,
          some "jo@example.com", some "9.99", some "note", some [exItem]⟩)) exMdsOk).sent =
      none := by
  refine ⟨rfl, ?_, rfl⟩
  intro hc
  rw [show (webhook exCfg
      (Request.mk (some exSig) []
        (some ⟨none, some "garbage!!!", false, some exShip, none,
          some "jo@example.com", some "9.99", some "note", some [exItem]⟩)) exMdsOk).result =
      Except.error PyExc.keyError from rfl] at hc
  have := Except.error.inj hc
  exact PyExc.noConfusion this

/-- C10 as amended: for an authenticated, non-excluded event carrying an
`order_number`, a `created_at` whose first ten characters do not parse as
`%Y-%m-%d` raises a `ValueError` that the `except KeyError:` handler does
not catch: the request terminates with the uncaught exception, no 200
response, and no outbound call. -/
theorem claim10_valueerror (cfg : Config) (req : Request) (mds : MdsResponse)
    (hdr : String) (data : OrderEvent) (sa : Address) (n : Int) (ca : String)
    (hh : req.hmacHeader = some hdr) (hj : req.json = some data)
    (hv : _hmac_is_valid cfg.secret req.rawBody hdr = true)
    (hr : data.refunds_truthy = false) (hs : data.shipping_address = some sa)
    (hc : sa.country_code = some "US") (ho : data.order_number = some n)
    (hca : data.created_at = some ca)
    (hbad : strptime10 (ca.data.take 10) = none) :
    webhook cfg req mds = ⟨.error .valueError, none, [dbgLog]⟩ := by
  have hb : buildOrder cfg data = .error .valueError := by
    unfold buildOrder
    simp [ho, hca, hbad]
  rw [webhook_processes cfg req mds hdr data hh hj hv]
  exact processEvent_valueErr cfg data mds sa hr hs hc hb

/-- An otherwise-forwardable event with an unparseable `created_at`, used
by the C10 witness. -/
def exDataBadDate : OrderEvent :=
  ⟨some 1001, some "garbage!!!", false, some exShip, none,
   some "jo@example.com", some "9.99", some "note", some [exItem]⟩

/-- Witness for the amended C10 at a concrete unparseable date. -/
theorem claim10_witness :
    (exDataBadDate.order_number = some 1001 ∧
      strptime10 (("garbage!!!" : String).data.take 10) = none) ∧
    webhook exCfg (Request.mk (some exSig) [] (some exDataBadDate)) exMdsOk =
      ⟨.error .valueError, none, [dbgLog]⟩ :=
  ⟨⟨rfl, rfl⟩,
   claim10_valueerror exCfg (Request.mk (some exSig) [] (some exDataBadDate)) exMdsOk exSig
     exDataBadDate exShip 1001 "garbage!!!" rfl rfl rfl rfl rfl rfl rfl rfl rfl⟩

/-- C1: whenever the handler makes the outbound call, the document's
`Lines` node holds exactly `count(line_items) − count(WS) − count(DC)`
`Line` elements; and when that retained count is zero (with construction
otherwise succeeding), the handler returns 200 "OK" without any outbound
call. -/
theorem claim1_line_count (cfg : Config) (req : Request) (mds : MdsResponse)
    (data : OrderEvent) (items : List LineItem)
    (hj : req.json = some data) (hli : data.line_items = some items) :
    (∀ root, (webhook cfg req mds).sent = some root →
      (linesChildren root).length =
        items.length - items.countP skuWS - items.countP skuDC) ∧
    (∀ hdr sa els n w d, req.hmacHeader = some hdr →
      _hmac_is_valid cfg.secret req.rawBody hdr = true →
      data.refunds_truthy = false → data.shipping_address = some sa →
      sa.country_code = some "US" → buildOrder cfg data = .ok (els, n, w, d) →
      items.length - items.countP skuWS - items.countP skuDC = 0 →
      (webhook cfg req mds).result = .ok (200, "OK") ∧ (webhook cfg req mds).sent = none) := by
  constructor
  · intro root hsent
    obtain ⟨hdr, data2, hh2, hj2, hv2, hps⟩ := webhook_sent_inv cfg req mds root hsent
    rw [hj] at hj2
    obtain rfl : data = data2 := Option.some.inj hj2
    obtain ⟨sa, els, n, w, d, onum, hr, hs, hc, hb, ho, hn, hroot⟩ :=
      processEvent_sent cfg data mds root hps
    obtain ⟨items2, lineEls, hli2, hbl, hlc⟩ := buildOrder_linesChildren cfg data els n w d hb
    rw [hli] at hli2
    obtain rfl : items = items2 := Option.some.inj hli2
    obtain ⟨hspec, -, -, -⟩ := buildLines_ok items 0 0 0 lineEls n w d hbl
    rw [hroot, hlc, hspec, linesSpec_length]
    have := count_partition items
    omega
  · intro hdr sa els n w d hh hv hr hs hc hb hzero
    obtain ⟨onum, ca, ymd, ship, bill, total, nt, items2, lineEls,
      h1, h2, h3, hge, h4, h5, h6, h7, h8, h9, hels⟩ := buildOrder_ok cfg data els n w d hb
    rw [hli] at h8
    obtain rfl : items = items2 := Option.some.inj h8
    obtain ⟨-, hcount, -, -⟩ := buildLines_ok items 0 0 0 lineEls n w d h9
    have hpart := count_partition items
    have hn0 : n = 0 := by omega
    rw [hn0] at hb
    rw [webhook_processes cfg req mds hdr data hh hj hv,
      processEvent_zero cfg data mds sa els w d onum hr hs hc hb h1]
    constructor <;> trivial

/-- An all-excluded event (one `WS` and one `DC` line), used by the C1
witness. -/
def exDataAllExcl : OrderEvent :=
  ⟨some 1001, some "2021-03-05T10:00:00Z", false, some exShip, none,
   some "jo@example.com", some "9.99", some "note", some [exItemWS, exItemDC]⟩

/-- Witness for C1 at a concrete event whose lines are all excluded. -/
theorem claim1_witness :
    ((Request.mk (some exSig) [] (some exDataAllExcl)).json = some exDataAllExcl ∧
      exDataAllExcl.line_items = some [exItemWS, exItemDC] ∧
      buildOrder exCfg exDataAllExcl =
        .ok (okEls (buildOrder exCfg exDataAllExcl), okN (buildOrder exCfg exDataAllExcl),
          okW (buildOrder exCfg exDataAllExcl), okD (buildOrder exCfg exDataAllExcl)) ∧
      [exItemWS, exItemDC].length - [exItemWS, exItemDC].countP skuWS -
        [exItemWS, exItemDC].countP skuDC = 0) ∧
    ((webhook exCfg (Request.mk (some exSig) [] (some exDataAllExcl)) exMdsOk).result =
        .ok (200, "OK") ∧
      (webhook exCfg (Request.mk (some exSig) [] (some exDataAllExcl)) exMdsOk).sent = none) :=
  ⟨⟨rfl, rfl, rfl, rfl⟩,
   (claim1_line_count exCfg (Request.mk (some exSig) [] (some exDataAllExcl)) exMdsOk
     exDataAllExcl [exItemWS, exItemDC] rfl rfl).2 exSig exShip
     (okEls (buildOrder exCfg exDataAllExcl)) (okN (buildOrder exCfg exDataAllExcl))
     (okW (buildOrder exCfg exDataAllExcl)) (okD (buildOrder exCfg exDataAllExcl))
     rfl rfl rfl rfl rfl rfl rfl⟩

/-- C4 counterexample: the claim promises 200 "OK" even when parsing the
downstream response raises, but `xmltodict.parse` runs outside the `try`,
so a parse exception escapes uncaught (after the outbound call was made)
instead of producing the 200 "OK" response. -/
theorem claim4_counterexample :
    (webhook exCfg exReq (MdsResponse.mk "not-xml" (.error .xmlParseError))).result =
      .error .xmlParseError ∧
    (webhook exCfg exReq (MdsResponse.mk "not-xml" (.error .xmlParseError))).result ≠
      .ok (200, "OK") ∧
    (webhook exCfg exReq (MdsResponse.mk "not-xml" (.error .xmlParseError))).sent.isSome =
      true := by
  refine ⟨rfl, ?_, rfl⟩
  intro hc
  rw [show (webhook exCfg exReq (MdsResponse.mk "not-xml" (.error .xmlParseError))).result =
      Except.error PyExc.xmlParseError from rfl] at hc
  exact Except.noConfusion hc

/-- C4 as amended: when the downstream response parses but the nested
result field is missing or differs from "1" (any exception inside the
acknowledgment `try` included), the handler still returns 200 "OK" to the
inbound caller and logs, at error level, a record containing the full
response body; a failure of `xmltodict.parse` itself is instead uncaught. -/
theorem claim4_ack_failure (cfg : Config) (req : Request) (mds : MdsResponse)
    (hdr : String) (data : OrderEvent) (sa : Address) (els : List Element)
    (n w d : Nat) (onum : Int) (resp : XVal)
    (hh : req.hmacHeader = some hdr) (hj : req.json = some data)
    (hv : _hmac_is_valid cfg.secret req.rawBody hdr = true)
    (hr : data.refunds_truthy = false) (hs : data.shipping_address = some sa)
    (hc : sa.country_code = some "US") (hb : buildOrder cfg data = .ok (els, n, w, d))
    (ho : data.order_number = some onum) (hn : n ≠ 0)
    (hp : mds.parsed = .ok resp) (hack : ackOk resp = false) :
    (webhook cfg req mds).result = .ok (200, "OK") ∧
    (⟨.error, "Problem sending Order #" ++ pyIntStr onum ++ " to MDS. Response: " ++
      mds.text ++ "."⟩ : LogEntry) ∈ (webhook cfg req mds).logs ∧
    (webhook cfg req mds).sent = some (mkRoot cfg els) := by
  rw [webhook_processes cfg req mds hdr data hh hj hv,
    processEvent_forward cfg data mds sa els n w d onum hr hs hc hb ho hn]
  unfold sendToMds
  rw [hp]
  simp only [hack, Bool.false_eq_true, if_false]
  refine ⟨by trivial, ?_, by trivial⟩
  exact List.Mem.tail _ (List.mem_append_right _ (by simp))

/-- A parseable downstream response lacking the expected result field,
used by the C4 witness. -/
def exMdsNoField : MdsResponse := ⟨"weird-ack", .ok (.dict [("Weird", .str "x")])⟩

/-- Witness for the amended C4 at a concrete response missing the nested
result field. -/
theorem claim4_witness :
    (exMdsNoField.parsed = .ok (.dict [("Weird", .str "x")]) ∧
      ackOk (.dict [("Weird", .str "x")]) = false ∧
      buildOrder exCfg exData =
        .ok (okEls (buildOrder exCfg exData), okN (buildOrder exCfg exData),
          okW (buildOrder exCfg exData), okD (buildOrder exCfg exData)) ∧
      okN (buildOrder exCfg exData) ≠ 0) ∧
    ((webhook exCfg exReq exMdsNoField).result = .ok (200, "OK") ∧
      (⟨.error, "Problem sending Order #" ++ pyIntStr 1001 ++ " to MDS. Response: " ++
        exMdsNoField.text ++ "."⟩ : LogEntry) ∈ (webhook exCfg exReq exMdsNoField).logs ∧
      (webhook exCfg exReq exMdsNoField).sent =
        some (mkRoot exCfg (okEls (buildOrder exCfg exData)))) :=
  ⟨⟨rfl, rfl, rfl, by decide⟩,
   claim4_ack_failure exCfg exReq exMdsNoField exSig exData exShip
     (okEls (buildOrder exCfg exData)) (okN (buildOrder exCfg exData))
     (okW (buildOrder exCfg exData)) (okD (buildOrder exCfg exData)) 1001
     (.dict [("Weird", .str "x")]) rfl rfl rfl rfl rfl rfl rfl rfl (by decide) rfl rfl⟩

/-- C6: for every forwarded order whose `created_at` starts with a valid
`YYYY-MM-DD` date (its first ten characters), the document's `OrderDate`
is that date reformatted as `MM/DD/YYYY`, digit for digit. -/
theorem claim6_order_date (cfg : Config) (req : Request) (mds : MdsResponse)
    (data : OrderEvent) (root : Element) (ca : String) (rest : List Char)
    (y1 y2 y3 y4 m1 m2 e1 e2 : Nat)
    (hj : req.json = some data) (hca : data.created_at = some ca)
    (hchars : ca.data = [digitChar y1, digitChar y2, digitChar y3, digitChar y4, '-',
      digitChar m1, digitChar m2, '-', digitChar e1, digitChar e2] ++ rest)
    (g1 : y1 ≤ 9) (g2 : y2 ≤ 9) (g3 : y3 ≤ 9) (g4 : y4 ≤ 9)
    (g5 : m1 ≤ 9) (g6 : m2 ≤ 9) (g7 : e1 ≤ 9) (g8 : e2 ≤ 9)
    (hy : 1 ≤ 1000 * y1 + 100 * y2 + 10 * y3 + y4)
    (hm1 : 1 ≤ 10 * m1 + m2) (hm2 : 10 * m1 + m2 ≤ 12)
    (hd1 : 1 ≤ 10 * e1 + e2)
    (hd2 : 10 * e1 + e2 ≤ daysInMonth (1000 * y1 + 100 * y2 + 10 * y3 + y4) (10 * m1 + m2))
    (hsent : (webhook cfg req mds).sent = some root) :
    orderDateText root =
      some ⟨[digitChar m1, digitChar m2, '/', digitChar e1, digitChar e2, '/',
        digitChar y1, digitChar y2, digitChar y3, digitChar y4]⟩ := by
  obtain ⟨hdr, data2, hh2, hj2, hv2, hps⟩ := webhook_sent_inv cfg req mds root hsent
  rw [hj] at hj2
  obtain rfl : data = data2 := Option.some.inj hj2
  obtain ⟨sa, els, n, w, d, onum, hr, hs, hc, hb, ho, hn, hroot⟩ :=
    processEvent_sent cfg data mds root hps
  obtain ⟨ca2, ymd, hca2, hparse, hodt⟩ := buildOrder_orderDate cfg data els n w d hb
  rw [hca] at hca2
  obtain rfl : ca = ca2 := Option.some.inj hca2
  have hlen : ([digitChar y1, digitChar y2, digitChar y3, digitChar y4, '-',
      digitChar m1, digitChar m2, '-', digitChar e1, digitChar e2] : List Char).length = 10 :=
    rfl
  rw [hchars, ← hlen, List.take_left] at hparse
  rw [strptime10_digits y1 y2 y3 y4 m1 m2 e1 e2 g1 g2 g3 g4 g5 g6 g7 g8 hy hm1 hm2 hd1 hd2]
    at hparse
  obtain rfl :
      (1000 * y1 + 100 * y2 + 10 * y3 + y4, 10 * m1 + m2, 10 * e1 + e2) = ymd :=
    Option.some.inj hparse
  rw [hroot, hodt,
    strftimeMdY_digits y1 y2 y3 y4 m1 m2 e1 e2 g1 g2 g3 g4 g5 g6 g7 g8]

/-- Witness for C6 at the spec's example `created_at`
`"2021-03-05T10:00:00Z"`, yielding `OrderDate` `"03/05/2021"`. -/
theorem claim6_witness :
    (exReq.json = some exData ∧
      exData.created_at = some "2021-03-05T10:00:00Z" ∧
      ("2021-03-05T10:00:00Z" : String).data =
        [digitChar 2, digitChar 0, digitChar 2, digitChar 1, '-', digitChar 0, digitChar 3,
          '-', digitChar 0, digitChar 5] ++ ("T10:00:00Z" : String).data ∧
      (webhook exCfg exReq exMdsOk).sent =
        some ((webhook exCfg exReq exMdsOk).sent.getD emptyEl)) ∧
    (orderDateText ((webhook exCfg exReq exMdsOk).sent.getD emptyEl) =
      some ⟨[digitChar 0, digitChar 3, '/', digitChar 0, digitChar 5, '/',
        digitChar 2, digitChar 0, digitChar 2, digitChar 1]⟩ ∧
     orderDateText ((webhook exCfg exReq exMdsOk).sent.getD emptyEl) = some "03/05/2021") :=
  ⟨⟨rfl, rfl, rfl, rfl⟩,
   ⟨claim6_order_date exCfg exReq exMdsOk exData
      ((webhook exCfg exReq exMdsOk).sent.getD emptyEl) "2021-03-05T10:00:00Z"
      ("T10:00:00Z" : String).data 2 0 2 1 0 3 0 5 rfl rfl rfl
      (by decide) (by decide) (by decide) (by decide) (by decide) (by decide) (by decide)
      (by decide) (by decide) (by decide) (by decide) (by decide) (by decide) rfl,
    rfl⟩⟩

/-- C7: for every forwarded order, the `Lines` node carries exactly one
`Line` element per retained item, in order: the `k`-th retained item
(1-based) yields a `Line` numbered with `k` zero-padded to three digits,
`CUSTItemID` and `RetailerItemID` both the SKU, `Description` the title,
`PricePerUnit` the price, and `Qty` the stringified quantity. -/
theorem claim7_line_fields (cfg : Config) (req : Request) (mds : MdsResponse)
    (data : OrderEvent) (items : List LineItem) (root : Element)
    (hj : req.json = some data) (hli : data.line_items = some items)
    (hsent : (webhook cfg req mds).sent = some root) :
    linesChildren root =
      ((items.filter skuRetained).enumFrom 1).map fun p => lineElemSpec p.1 p.2 := by
  obtain ⟨hdr, data2, hh2, hj2, hv2, hps⟩ := webhook_sent_inv cfg req mds root hsent
  rw [hj] at hj2
  obtain rfl : data = data2 := Option.some.inj hj2
  obtain ⟨sa, els, n, w, d, onum, hr, hs, hc, hb, ho, hn, hroot⟩ :=
    processEvent_sent cfg data mds root hps
  obtain ⟨items2, lineEls, hli2, hbl, hlc⟩ := buildOrder_linesChildren cfg data els n w d hb
  rw [hli] at hli2
  obtain rfl : items = items2 := Option.some.inj hli2
  obtain ⟨hspec, -, -, -⟩ := buildLines_ok items 0 0 0 lineEls n w d hbl
  rw [hroot, hlc, hspec, linesSpec_enum]

/-- Witness for C7 at the spec's example: order 1001 with one retained
line `ABC123 / Widget / 9.99 / 2` (plus one excluded `WS` line), giving a
single `Line` numbered "001" with those values. -/
theorem claim7_witness :
    (exReq.json = some exData ∧ exData.line_items = some [exItem, exItemWS] ∧
      (webhook exCfg exReq exMdsOk).sent =
        some ((webhook exCfg exReq exMdsOk).sent.getD emptyEl)) ∧
    (linesChildren ((webhook exCfg exReq exMdsOk).sent.getD emptyEl) =
      (([exItem, exItemWS].filter skuRetained).enumFrom 1).map
        (fun p => lineElemSpec p.1 p.2) ∧
     linesChildren ((webhook exCfg exReq exMdsOk).sent.getD emptyEl) =
      [Element.mk "Line" [("number", "001")] none
        [el "CUSTItemID" "ABC123", el "RetailerItemID" "ABC123", el "Description" "Widget",
         el "PricePerUnit" "9.99", el "Qty" "2"]]) :=
  ⟨⟨rfl, rfl, rfl⟩,
   ⟨claim7_line_fields exCfg exReq exMdsOk exData [exItem, exItemWS]
      ((webhook exCfg exReq exMdsOk).sent.getD emptyEl) rfl rfl rfl,
    rfl⟩⟩

end Tranquilo
